import Mathlib

/-!
# Schema reconciliation (`postgres/migration.go`)

A shallow embedding of the `postgres` package of LightningSDK/db: the schema
model, the differ (`getColumnAction`, `getIndexAction`), the statement
renderers and the orchestrator `Migrate`, followed by theorems about them.

Conventions of the embedding.

* A Go `map[string]V` is an association list `GoMap V`; a `range` loop visits
  the entries in list order, so quantifying over every list covers every
  iteration order the Go runtime may pick.  A well-formed map has distinct
  keys; every concrete input below has.
* The database handle `*sql.DB` is a parameter: a record `DB σ` of two
  transition functions over an arbitrary state `σ`.  Every call that reaches
  the handle is appended to a trace, which is what the theorems speak about.
* Go's `(value, error)` results are pairs whose second component is an
  `Option Error`; a run-time panic is the outcome `panicked`.
-/

namespace Postgres

/-! ## Go values -/

/-- Go `error` values, identified by their message; `nil` is `none`. -/
abbrev Error := String

/-- Go `map[string]V` as an association list. -/
abbrev GoMap (V : Type) := List (String × V)

/-- The lookup `v, ok := m[k]`: `none` when `ok` is false. -/
def GoMap.find {V : Type} (m : GoMap V) (k : String) : Option V :=
  List.lookup k m

/-- The assignment `m[k] = v`: replaces the entry of `k`, or adds one. -/
def GoMap.store {V : Type} : GoMap V → String → V → GoMap V
  | [], k, v => [(k, v)]
  | (k', v') :: rest, k, v =>
    if k' = k then (k, v) :: rest else (k', v') :: GoMap.store rest k v

/-! ## Schema model (migration.go, lines 9-34) -/

/-- The struct `Column`; the Go field `Type` is spelled `Typ`. -/
structure Column where
  Typ : String
  NotNull : Bool
  Previous : String
  Delete : Bool
deriving DecidableEq, Repr

/-- The struct `IndexColumn`. -/
structure IndexColumn where
  Direction : String
  Unique : String
deriving DecidableEq, Repr

/-- The struct `Index`. -/
structure Index where
  Columns : GoMap IndexColumn
  Delete : Bool
deriving DecidableEq, Repr

/-- The struct `Table`. -/
structure Table where
  Columns : GoMap Column
  Indexes : GoMap Index
  Delete : Bool
deriving DecidableEq, Repr

/-- The struct `Migration`. -/
structure Migration where
  Tables : GoMap Table
deriving DecidableEq, Repr

/-! ## Action codes (migration.go, lines 48-53) -/

/-- The constant `Noop = iota`. -/
abbrev Noop : Nat := 0
/-- The constant `Create`. -/
abbrev Create : Nat := 1
/-- The constant `Update`. -/
abbrev Update : Nat := 2
/-- The constant `Delete`. -/
abbrev Delete : Nat := 3

/-! ## The differ -/

/-- The function `defineIndex` (lines 256-258): returns the empty string. -/
def defineIndex (_i : Index) : String := ""

/-- The method `getColumnAction` (lines 170-189); `fx == cd` is Go struct
equality, which compares all four fields. -/
def getColumnAction (f : String) (cd : Column) (exf : GoMap Column) : Nat :=
  match exf.find f with
  | some fx =>
    if cd.Delete then Delete
    else if fx = cd then Noop
    else Update
  | none =>
    if cd.Delete then Noop
    else Create

/-- The method `getIndexAction` (lines 218-237). -/
def getIndexAction (i : String) (id : Index) (exi : GoMap String) : Nat :=
  match exi.find i with
  | some ix =>
    if id.Delete then Delete
    else if ix = defineIndex id then Noop
    else Update
  | none =>
    if id.Delete then Noop
    else Create

/-! ## The database handle -/

/-- A cell of a result row, as the driver hands it to `Rows.Scan`: a 64-bit
integer, a string, or NULL. -/
inductive Value where
  | int (n : Int)
  | str (s : String)
  | null
deriving DecidableEq, Repr

/-- One result row. -/
abbrev Row := List Value

/-- A call on the handle: the statement text and its bind arguments. -/
inductive Call where
  | query (sql : String) (args : List String)
  | exec (sql : String) (args : List String)
deriving DecidableEq, Repr

/-- The handle `*sql.DB`: how the database answers `Query` and `Exec` in a
state, and the state it is in afterwards. -/
structure DB (σ : Type) where
  query : σ → String → List String → Except Error (List Row) × σ
  exec : σ → String → List String → Option Error × σ

/-- The struct `Service`. -/
structure Service (σ : Type) where
  schema : String
  db : DB σ

/-- The function `New`: the schema is `public`. -/
def New {σ : Type} (db : DB σ) : Service σ :=
  { schema := "public", db := db }

/-- The database state together with the calls made so far. -/
structure World (σ : Type) where
  st : σ
  trace : List Call

/-- An outcome of a Go call: it returns, or it panics. -/
inductive Outcome (α : Type) where
  | returned (a : α)
  | panicked
deriving DecidableEq, Repr

/-- The call `s.db.Query(sql, args...)`, recorded in the trace. -/
def Service.Query {σ : Type} (s : Service σ) (sql : String) (args : List String)
    (w : World σ) : Except Error (List Row) × World σ :=
  ((s.db.query w.st sql args).1,
    { st := (s.db.query w.st sql args).2, trace := w.trace ++ [Call.query sql args] })

/-- The call `s.db.Exec(sql, args...)`, recorded in the trace; only the error
of the result is kept, as in the source. -/
def Service.Exec {σ : Type} (s : Service σ) (sql : String) (args : List String)
    (w : World σ) : Option Error × World σ :=
  ((s.db.exec w.st sql args).1,
    { st := (s.db.exec w.st sql args).2, trace := w.trace ++ [Call.exec sql args] })

/-- The conversion `Rows.Scan` applies for a `*string` destination. -/
def scanString : Value → Except Error String
  | Value.str s => Except.ok s
  | Value.int n => Except.ok (toString n)
  | Value.null => Except.error "sql: Scan error: converting NULL to string is unsupported"

/-- The value of a non-empty run of decimal digits. -/
def parseDigits (cs : List Char) : Option Nat :=
  if cs ≠ [] ∧ cs.all Char.isDigit = true then
    some (cs.foldl (fun n c => 10 * n + (c.toNat - 48)) 0)
  else none

/-- The call `strconv.ParseInt(s, 10, 64)`: an optional sign, decimal digits,
and a result within 64 bits (the `int` of a 64-bit platform). -/
def parseInt (s : String) : Option Int :=
  match s.toList with
  | '+' :: ds => (parseDigits ds).bind (fun n => if n < 2 ^ 63 then some (n : Int) else none)
  | '-' :: ds => (parseDigits ds).bind (fun n => if n ≤ 2 ^ 63 then some (-(n : Int)) else none)
  | ds => (parseDigits ds).bind (fun n => if n < 2 ^ 63 then some (n : Int) else none)

/-- The conversion `Rows.Scan` applies for an `*int` destination: the value is
rendered as a string and parsed. -/
def scanInt : Value → Except Error Int
  | Value.int n => Except.ok n
  | Value.str s =>
    match parseInt s with
    | some n => Except.ok n
    | none => Except.error "sql: Scan error: converting string to int"
  | Value.null => Except.error "sql: Scan error: converting NULL to int is unsupported"

/-- The error of `Rows.Scan` when the number of destinations is not the number
of columns of the row. -/
def scanArityError : Error := "sql: wrong number of destination arguments in Scan"

/-! ## Introspection -/

/-- The statement of `tableExists`. -/
def tableExistsSQL : String :=
  "SELECT count(*) FROM information_schema.tables WHERE table_name = $1"

/-- The statement of `getColumns`. -/
def getColumnsSQL : String :=
  "SELECT column_name, column_default, is_nullable, data_type, character_maximum_length FROM information_schema.columns WHERE table_schema = $1 AND table_name = $2"

/-- The statement of `getIndexes`. -/
def getIndexesSQL : String :=
  "SELECT indexname, indexdef FROM pg_indexes WHERE tablename = '%s'"

/-- The method `tableExists` (lines 107-122).  A failed query returns its
error; no row, or a failed `Scan`, returns `(false, nil)`. -/
def tableExists {σ : Type} (s : Service σ) (t : String) (w : World σ) :
    (Bool × Option Error) × World σ :=
  match s.Query tableExistsSQL [t] w with
  | (Except.error e, w1) => ((false, some e), w1)
  | (Except.ok [], w1) => ((false, none), w1)
  | (Except.ok (row :: _), w1) =>
    match row with
    | [v] =>
      match scanInt v with
      | Except.error _ => ((false, none), w1)
      | Except.ok c => ((decide (c > 0), none), w1)
    | _ => ((false, none), w1)

/-- The loop `for res.Next()` of `getColumns` (lines 158-165): each row is
scanned into two `*string` destinations, the name and the field `Type`. -/
def getColumnsLoop : List Row → GoMap Column → GoMap Column × Option Error
  | [], cs => (cs, none)
  | row :: rest, cs =>
    match row with
    | [a, b] =>
      match scanString a with
      | Except.error e => ([], some e)
      | Except.ok cn =>
        match scanString b with
        | Except.error e => ([], some e)
        | Except.ok ty =>
          getColumnsLoop rest
            (cs.store cn { Typ := ty, NotNull := false, Previous := "", Delete := false })
    | _ => ([], some scanArityError)

/-- The method `getColumns` (lines 152-168). -/
def getColumns {σ : Type} (s : Service σ) (t : String) (w : World σ) :
    (GoMap Column × Option Error) × World σ :=
  match s.Query getColumnsSQL [s.schema, t] w with
  | (Except.error e, w1) => (([], some e), w1)
  | (Except.ok rows, w1) => (getColumnsLoop rows [], w1)

/-- The loop `for res.Next()` of `getIndexes` (lines 209-215). -/
def getIndexesLoop : List Row → GoMap String → GoMap String × Option Error
  | [], is => (is, none)
  | row :: rest, is =>
    match row with
    | [a, b] =>
      match scanString a with
      | Except.error e => ([], some e)
      | Except.ok name =>
        match scanString b with
        | Except.error e => ([], some e)
        | Except.ok desc => getIndexesLoop rest (is.store name desc)
    | _ => ([], some scanArityError)

/-- The method `getIndexes` (lines 206-217).  The error of `Query` is not
tested before `res.Next()`; on an error `res` is the nil pointer and the call
panics. -/
def getIndexes {σ : Type} (s : Service σ) (t : String) (w : World σ) :
    Outcome (GoMap String × Option Error) × World σ :=
  match s.Query getIndexesSQL [t] w with
  | (Except.error _, w1) => (Outcome.panicked, w1)
  | (Except.ok rows, w1) => (Outcome.returned (getIndexesLoop rows []), w1)

/-! ## The executor -/

/-- The method `deleteTable` (lines 124-127): it executes the empty statement. -/
def deleteTable {σ : Type} (s : Service σ) (_table : String) (w : World σ) :
    Option Error × World σ :=
  s.Exec "" [] w

/-- The loop of `createTable` over `td.Columns` (lines 135-145), which
accumulates the clauses in `ps`. -/
def createTableLoop : List (String × Column) → List String → List String
  | [], ps => ps
  | (c, cd) :: rest, ps =>
    if cd.Delete then createTableLoop rest ps
    else
      let cs := c ++ " " ++ cd.Typ
      let cs := if cd.NotNull then cs ++ " NOT NULL" else cs
      createTableLoop rest (ps ++ [cs])

/-- The statement text `createTable` builds (lines 130-146). -/
def createTableQuery (schema t : String) (td : Table) : String :=
  ("CREATE TABLE " ++ schema ++ "." ++ t ++ " ") ++
    ("(" ++ String.intercalate ", " (createTableLoop td.Columns []) ++ ")")

/-- The method `createTable` (lines 128-150). -/
def createTable {σ : Type} (s : Service σ) (t : String) (td : Table) (w : World σ) :
    Option Error × World σ :=
  s.Exec (createTableQuery s.schema t td) [] w

/-- The method `createColumn` (lines 191-194). -/
def createColumn {σ : Type} (s : Service σ) (t f : String) (cd : Column) (w : World σ) :
    Option Error × World σ :=
  s.Exec "ALTER TABLE %s ADD COLUMN %s %s" [t, f, cd.Typ] w

/-- The method `updateColumn` (lines 196-199). -/
def updateColumn {σ : Type} (s : Service σ) (t f : String) (cd : Column) (w : World σ) :
    Option Error × World σ :=
  s.Exec "ALTER TABLE %s ALTER COLUMN %s SET DATA TYPE %s" [t, f, cd.Typ] w

/-- The method `deleteColumn` (lines 201-204). -/
def deleteColumn {σ : Type} (s : Service σ) (t f : String) (w : World σ) :
    Option Error × World σ :=
  s.Exec "ALTER TABLE %s DROP COLUMN %s" [t, f] w

/-- The loop of `createIndex` over `id.Columns` (lines 244-250): the bind
arguments `vars` and the placeholders `ps`. -/
def createIndexLoop :
    List (String × IndexColumn) → List String → List String → List String × List String
  | [], vars, ps => (vars, ps)
  | (c, cd) :: rest, vars, ps =>
    let dir := if cd.Direction = "" then "ASC" else cd.Direction
    createIndexLoop rest (vars ++ [c, dir]) (ps ++ ["%s %s"])

/-- The method `createIndex` (lines 238-254). -/
def createIndex {σ : Type} (s : Service σ) (t i : String) (id : Index) (w : World σ) :
    Option Error × World σ :=
  s.Exec
    ("CREATE INDEX %s ON %s " ++
      ("(" ++ String.intercalate ", " (createIndexLoop id.Columns [i, t] []).2 ++ ")"))
    (createIndexLoop id.Columns [i, t] []).1 w

/-- The method `deleteIndex` (lines 268-271). -/
def deleteIndex {σ : Type} (s : Service σ) (_t i : String) (w : World σ) :
    Option Error × World σ :=
  s.Exec "DROP INDEX %s" [i] w

/-- The method `updateIndex` (lines 260-267): the error of the second drop is
overwritten by the result of `createIndex`. -/
def updateIndex {σ : Type} (s : Service σ) (t i : String) (id : Index) (w : World σ) :
    Option Error × World σ :=
  match deleteIndex s t i w with
  | (some e, w1) => (some e, w1)
  | (none, w1) => createIndex s t i id (s.Exec "DROP INDEX %s" [i] w1).2

/-! ## The orchestrator -/

/-- The `switch` on the column action (lines 73-81).  `err` is the variable
`err` of `Migrate`; the case Noop, like an action code outside the four
constants, leaves it as it is. -/
def columnSwitch {σ : Type} (s : Service σ) (t c : String) (cd : Column)
    (exf : GoMap Column) (err : Option Error) (w : World σ) : Option Error × World σ :=
  if getColumnAction c cd exf = Noop then (err, w)
  else if getColumnAction c cd exf = Create then createColumn s t c cd w
  else if getColumnAction c cd exf = Update then updateColumn s t c cd w
  else if getColumnAction c cd exf = Delete then deleteColumn s t c w
  else (err, w)

/-- The loop of `Migrate` over `td.Columns` (lines 72-85).  On entry `err`
holds the error of `getColumns`, which the source has not tested.  The result
is `some e` when `Migrate` returns `e` from inside the loop. -/
def columnLoop {σ : Type} (s : Service σ) (t : String) (exf : GoMap Column) :
    List (String × Column) → Option Error → World σ → Option Error × World σ
  | [], _, w => (none, w)
  | (c, cd) :: rest, err, w =>
    match columnSwitch s t c cd exf err w with
    | (some e, w1) => (some e, w1)
    | (none, w1) => columnLoop s t exf rest none w1

/-- The `switch` on the index action (lines 89-97). -/
def indexSwitch {σ : Type} (s : Service σ) (t i : String) (id : Index)
    (exi : GoMap String) (err : Option Error) (w : World σ) : Option Error × World σ :=
  if getIndexAction i id exi = Noop then (err, w)
  else if getIndexAction i id exi = Create then createIndex s t i id w
  else if getIndexAction i id exi = Update then updateIndex s t i id w
  else if getIndexAction i id exi = Delete then deleteIndex s t i w
  else (err, w)

/-- The loop of `Migrate` over `td.Indexes` (lines 88-101); on entry `err`
holds the error of `getIndexes`. -/
def indexLoop {σ : Type} (s : Service σ) (t : String) (exi : GoMap String) :
    List (String × Index) → Option Error → World σ → Option Error × World σ
  | [], _, w => (none, w)
  | (i, id) :: rest, err, w =>
    match indexSwitch s t i id exi err w with
    | (some e, w1) => (some e, w1)
    | (none, w1) => indexLoop s t exi rest none w1

/-- The table-level step of `Migrate` (lines 62-66). -/
def tableStep {σ : Type} (s : Service σ) (t : String) (td : Table) (ex : Bool)
    (w : World σ) : Option Error × World σ :=
  if td.Delete && ex then deleteTable s t w
  else if !ex then createTable s t td w
  else (none, w)

/-- The loop of `Migrate` over `m.Tables` (lines 56-104). -/
def migrateLoop {σ : Type} (s : Service σ) :
    List (String × Table) → World σ → Outcome (Option Error) × World σ
  | [], w => (Outcome.returned none, w)
  | (t, td) :: rest, w =>
    match tableExists s t w with
    | ((_, some e), w1) => (Outcome.returned (some e), w1)
    | ((ex, none), w1) =>
      match tableStep s t td ex w1 with
      | (some e, w2) => (Outcome.returned (some e), w2)
      | (none, w2) =>
        match getColumns s t w2 with
        | ((exf, err), w3) =>
          match columnLoop s t exf td.Columns err w3 with
          | (some e, w4) => (Outcome.returned (some e), w4)
          | (none, w4) =>
            match getIndexes s t w4 with
            | (Outcome.panicked, w5) => (Outcome.panicked, w5)
            | (Outcome.returned (exi, err), w5) =>
              match indexLoop s t exi td.Indexes err w5 with
              | (some e, w6) => (Outcome.returned (some e), w6)
              | (none, w6) => migrateLoop s rest w6

/-- The method `Migrate` (lines 55-105). -/
def Migrate {σ : Type} (s : Service σ) (m : Migration) (w : World σ) :
    Outcome (Option Error) × World σ :=
  migrateLoop s m.Tables w

/-! ## The renderings the specification describes -/

/-- The clause of one column in the words of the specification:
`name type [NOT NULL]`. -/
def columnClause (c : String) (cd : Column) : String :=
  c ++ " " ++ cd.Typ ++ (if cd.NotNull then " NOT NULL" else "")

/-- The clauses of a table in the words of the specification: one per column
that is not marked `Delete`. -/
def tableClauses (td : Table) : List String :=
  (td.Columns.filter (fun p => !p.2.Delete)).map (fun p => columnClause p.1 p.2)

/-- The direction listed for an index column: `ASC` when the field is empty. -/
def listedDirection (cd : IndexColumn) : String :=
  if cd.Direction = "" then "ASC" else cd.Direction

/-- The index with every uniqueness marker removed. -/
def eraseUnique (id : Index) : Index :=
  { Columns := id.Columns.map (fun p => (p.1, { Direction := p.2.Direction, Unique := "" })),
    Delete := id.Delete }

/-! ## Databases and inputs for the concrete runs -/

/-- A database that answers the three introspection statements with fixed
results, accepts every `Exec`, and holds no state. -/
def scriptedDB (tables columns indexes : Except Error (List Row)) : DB Unit where
  query := fun _ sql _ =>
    (if sql = tableExistsSQL then tables
     else if sql = getColumnsSQL then columns
     else if sql = getIndexesSQL then indexes
     else Except.ok [], ())
  exec := fun _ _ _ => (none, ())

/-- The world before the first call. -/
def World.start : World Unit := { st := (), trace := [] }

/-- A database in which no table exists: the count of `tableExists` is 0 and
the catalog holds no column and no index. -/
def emptyDatabase : DB Unit :=
  scriptedDB (Except.ok [[Value.int 0]]) (Except.ok []) (Except.ok [])

/-- A database in which the table asked for exists (the count of `tableExists`
is 1), with the given answers to the column and index introspection. -/
def catalogDatabase (columns indexes : Except Error (List Row)) : DB Unit :=
  scriptedDB (Except.ok [[Value.int 1]]) columns indexes

/-- A column of the given type, nullable, without rename hint, not deleted. -/
def plainColumn (ty : String) : Column :=
  { Typ := ty, NotNull := false, Previous := "", Delete := false }

/-- An index column with the given direction and no uniqueness marker. -/
def plainIndexColumn (dir : String) : IndexColumn :=
  { Direction := dir, Unique := "" }

/-! ## Theorems: the differ -/

theorem find_nil {V : Type} (k : String) : GoMap.find ([] : GoMap V) k = none := rfl

theorem find_cons_self {V : Type} (k : String) (v : V) (m : GoMap V) :
    GoMap.find ((k, v) :: m) k = some v := by
  simp [GoMap.find, List.lookup]

theorem column_ext (a b : Column) :
    a = b ↔ a.Typ = b.Typ ∧ a.NotNull = b.NotNull ∧ a.Previous = b.Previous ∧
      a.Delete = b.Delete := by
  constructor
  · intro h
    subst h
    exact ⟨rfl, rfl, rfl, rfl⟩
  · intro h
    cases a
    cases b
    simp_all

/-- C2: the existence and deletion rows of the decision table hold for columns
and for indexes.  A name absent from the existing map gives Create when the
desired entity is not marked Delete and Noop when it is; a name present with
the desired entity marked Delete gives Delete; and Delete is returned only for
a name that is present. -/
theorem decision_table_existence (f : String) (cd : Column) (exf : GoMap Column)
    (i : String) (id : Index) (exi : GoMap String) :
    (exf.find f = none → cd.Delete = false → getColumnAction f cd exf = Create) ∧
    (exf.find f = none → cd.Delete = true → getColumnAction f cd exf = Noop) ∧
    (exf.find f ≠ none → cd.Delete = true → getColumnAction f cd exf = Delete) ∧
    (getColumnAction f cd exf = Delete → exf.find f ≠ none) ∧
    (exi.find i = none → id.Delete = false → getIndexAction i id exi = Create) ∧
    (exi.find i = none → id.Delete = true → getIndexAction i id exi = Noop) ∧
    (exi.find i ≠ none → id.Delete = true → getIndexAction i id exi = Delete) ∧
    (getIndexAction i id exi = Delete → exi.find i ≠ none) := by
  refine ⟨?_, ?_, ?_, ?_, ?_, ?_, ?_, ?_⟩
  · intro h hd
    simp [getColumnAction, h, hd]
  · intro h hd
    simp [getColumnAction, h, hd]
  · intro h hd
    cases hx : exf.find f with
    | none => exact absurd hx h
    | some fx => simp [getColumnAction, hx, hd]
  · intro h hx
    unfold getColumnAction at h
    rw [hx] at h
    by_cases hd : cd.Delete = true <;> simp [hd] at h
  · intro h hd
    simp [getIndexAction, h, hd]
  · intro h hd
    simp [getIndexAction, h, hd]
  · intro h hd
    cases hx : exi.find i with
    | none => exact absurd hx h
    | some ix => simp [getIndexAction, hx, hd]
  · intro h hx
    unfold getIndexAction at h
    rw [hx] at h
    by_cases hd : id.Delete = true <;> simp [hd] at h

/-- Witness of C2: each implication of `decision_table_existence` used at a
concrete column and a concrete index. -/
theorem decision_table_existence_witness :
    getColumnAction "id" (plainColumn "integer") [] = Create ∧
    getColumnAction "id" { plainColumn "integer" with Delete := true } [] = Noop ∧
    getColumnAction "id" { plainColumn "integer" with Delete := true }
      [("id", plainColumn "integer")] = Delete ∧
    getIndexAction "ix" { Columns := [("id", plainIndexColumn "ASC")], Delete := false } []
      = Create ∧
    getIndexAction "ix" { Columns := [("id", plainIndexColumn "ASC")], Delete := true } []
      = Noop ∧
    getIndexAction "ix" { Columns := [("id", plainIndexColumn "ASC")], Delete := true }
      [("ix", "")] = Delete ∧
    GoMap.find [("id", plainColumn "integer")] "id" ≠ none ∧
    GoMap.find [("ix", "")] "ix" ≠ none :=
  ⟨(decision_table_existence "id" (plainColumn "integer") [] "ix"
      { Columns := [], Delete := false } []).1 rfl rfl,
   (decision_table_existence "id" { plainColumn "integer" with Delete := true } [] "ix"
      { Columns := [], Delete := false } []).2.1 rfl rfl,
   (decision_table_existence "id" { plainColumn "integer" with Delete := true }
      [("id", plainColumn "integer")] "ix" { Columns := [], Delete := false } []).2.2.1
      (by decide) rfl,
   (decision_table_existence "id" (plainColumn "integer") [] "ix"
      { Columns := [("id", plainIndexColumn "ASC")], Delete := false } []).2.2.2.2.1 rfl rfl,
   (decision_table_existence "id" (plainColumn "integer") [] "ix"
      { Columns := [("id", plainIndexColumn "ASC")], Delete := true } []).2.2.2.2.2.1 rfl rfl,
   (decision_table_existence "id" (plainColumn "integer") [] "ix"
      { Columns := [("id", plainIndexColumn "ASC")], Delete := true }
      [("ix", "")]).2.2.2.2.2.2.1 (by decide) rfl,
   (decision_table_existence "id" { plainColumn "integer" with Delete := true }
      [("id", plainColumn "integer")] "ix" { Columns := [], Delete := false } []).2.2.2.1 rfl,
   (decision_table_existence "id" (plainColumn "integer") [] "ix"
      { Columns := [("id", plainIndexColumn "ASC")], Delete := true }
      [("ix", "")]).2.2.2.2.2.2.2 rfl⟩

/-- Counterexample to C3: the existing column and the desired column have the
same Type and the same NotNull and differ only in the Previous hint, and
`getColumnAction` returns Update, not Noop. -/
theorem column_previous_hint_is_update :
    (plainColumn "integer").Typ = ({ plainColumn "integer" with Previous := "uid" } : Column).Typ ∧
    (plainColumn "integer").NotNull =
      ({ plainColumn "integer" with Previous := "uid" } : Column).NotNull ∧
    ({ plainColumn "integer" with Previous := "uid" } : Column).Delete = false ∧
    getColumnAction "id" { plainColumn "integer" with Previous := "uid" }
      [("id", plainColumn "integer")] = Update := by
  decide

/-- C3, amended: for a name present in the existing map and a desired column
not marked Delete, `getColumnAction` returns Noop exactly when the existing
column equals the desired one in all four fields (Type, NotNull, Previous and
Delete), and Update otherwise. -/
theorem column_equality_all_fields (f : String) (cd fx : Column) (exf : GoMap Column)
    (hfx : exf.find f = some fx) (hd : cd.Delete = false) :
    (getColumnAction f cd exf = Noop ↔
      fx.Typ = cd.Typ ∧ fx.NotNull = cd.NotNull ∧ fx.Previous = cd.Previous ∧
        fx.Delete = cd.Delete) ∧
    (¬ (fx.Typ = cd.Typ ∧ fx.NotNull = cd.NotNull ∧ fx.Previous = cd.Previous ∧
        fx.Delete = cd.Delete) → getColumnAction f cd exf = Update) := by
  rw [← column_ext]
  unfold getColumnAction
  rw [hfx]
  by_cases h : fx = cd <;> simp [hd, h]

/-- Witness of C3, amended: an existing `varchar(50)` against a desired
`varchar(100)` is Update. -/
theorem column_equality_all_fields_witness :
    getColumnAction "name" (plainColumn "varchar(100)")
      [("name", plainColumn "varchar(50)")] = Update :=
  (column_equality_all_fields "name" (plainColumn "varchar(100)") (plainColumn "varchar(50)")
    [("name", plainColumn "varchar(50)")] (find_cons_self _ _ _) rfl).2 (by decide)

/-- Counterexample to C4: with `defineIndex` as the description, an existing
index on column `a` against a desired index on column `b` (a different column
set) is classified Noop, and so is an existing index listed as (a ASC, b ASC)
against a desired index listed as (b ASC, a ASC); the claim says Update. -/
theorem index_difference_is_noop :
    ({ Columns := [("a", plainIndexColumn "ASC")], Delete := false } : Index).Columns ≠
      ({ Columns := [("b", plainIndexColumn "ASC")], Delete := false } : Index).Columns ∧
    getIndexAction "ix" { Columns := [("b", plainIndexColumn "ASC")], Delete := false }
      [("ix", defineIndex { Columns := [("a", plainIndexColumn "ASC")], Delete := false })]
      = Noop ∧
    getIndexAction "ix"
      { Columns := [("b", plainIndexColumn "ASC"), ("a", plainIndexColumn "ASC")],
        Delete := false }
      [("ix", defineIndex
        { Columns := [("a", plainIndexColumn "ASC"), ("b", plainIndexColumn "ASC")],
          Delete := false })]
      = Noop := by
  decide

/-- C4, amended: for an index name present in the existing map and a desired
index not marked Delete, `getIndexAction` returns Noop exactly when the
existing description equals `defineIndex` of the desired index, and Update
otherwise; the order in which the columns are listed is immaterial (the
columns are a map keyed by name): whenever the existing description is
`defineIndex` of an index holding the same columns with the same directions
and uniqueness markers, in any order, the result is Noop. -/
theorem index_equality_by_description (i : String) (d : Index) (ix : String)
    (exi : GoMap String) (hix : exi.find i = some ix) (hd : d.Delete = false) :
    (getIndexAction i d exi = Noop ↔ ix = defineIndex d) ∧
    (ix ≠ defineIndex d → getIndexAction i d exi = Update) ∧
    (∀ e : Index, List.Perm e.Columns d.Columns → ix = defineIndex e →
      getIndexAction i d exi = Noop) := by
  unfold getIndexAction
  rw [hix]
  refine ⟨?_, ?_, ?_⟩
  · by_cases h : ix = defineIndex d <;> simp [hd, h]
  · intro h
    simp [hd, h]
  · intro e _ he
    have h : ix = defineIndex d := by rw [he]; rfl
    simp [hd, h]

/-- Witness of C4, amended: the existing index (a ASC, b ASC) against the
desired index (b ASC, a ASC) is Noop. -/
theorem index_equality_by_description_witness :
    getIndexAction "ix"
      { Columns := [("b", plainIndexColumn "ASC"), ("a", plainIndexColumn "ASC")],
        Delete := false }
      [("ix", defineIndex
        { Columns := [("a", plainIndexColumn "ASC"), ("b", plainIndexColumn "ASC")],
          Delete := false })] = Noop :=
  (index_equality_by_description "ix"
    { Columns := [("b", plainIndexColumn "ASC"), ("a", plainIndexColumn "ASC")],
      Delete := false }
    (defineIndex
      { Columns := [("a", plainIndexColumn "ASC"), ("b", plainIndexColumn "ASC")],
        Delete := false })
    [("ix", defineIndex
      { Columns := [("a", plainIndexColumn "ASC"), ("b", plainIndexColumn "ASC")],
        Delete := false })]
    (find_cons_self _ _ _) rfl).2.2
    { Columns := [("a", plainIndexColumn "ASC"), ("b", plainIndexColumn "ASC")],
      Delete := false }
    (List.Perm.swap _ _ _) rfl

/-! ## Theorems: the executor -/

theorem Exec_trace {σ : Type} (s : Service σ) (sql : String) (args : List String)
    (w : World σ) : (s.Exec sql args w).2.trace = w.trace ++ [Call.exec sql args] := rfl

theorem Query_trace {σ : Type} (s : Service σ) (sql : String) (args : List String)
    (w : World σ) : (s.Query sql args w).2.trace = w.trace ++ [Call.query sql args] := rfl

theorem createTableLoop_eq (cols : List (String × Column)) (ps : List String) :
    createTableLoop cols ps =
      ps ++ (cols.filter (fun p => !p.2.Delete)).map (fun p => columnClause p.1 p.2) := by
  induction cols generalizing ps with
  | nil => simp [createTableLoop]
  | cons p rest ih =>
    obtain ⟨c, cd⟩ := p
    unfold createTableLoop
    by_cases hd : cd.Delete = true
    · simp [hd, ih]
    · by_cases hn : cd.NotNull = true
      · simp [hd, hn, ih, columnClause]
      · simp [hd, hn, ih, columnClause]

theorem createTableQuery_eq (schema t : String) (td : Table) :
    createTableQuery schema t td =
      "CREATE TABLE " ++ schema ++ "." ++ t ++ " (" ++
        String.intercalate ", " (tableClauses td) ++ ")" := by
  unfold createTableQuery tableClauses
  rw [createTableLoop_eq]
  simp only [List.nil_append, String.append_assoc]
  rfl

/-- C9: `createTable` sends exactly one statement, without bind arguments, of
the form `CREATE TABLE <schema>.<table> (<clauses joined by ", ">)`; the
clauses are one per column not marked Delete, in the order the columns are
visited, and none for a column marked Delete, and each clause is
`<name> <Type>` followed by ` NOT NULL` exactly when NotNull is true. -/
theorem createTable_rendering {σ : Type} (s : Service σ) (t : String) (td : Table)
    (w : World σ) :
    (createTable s t td w).2.trace =
      w.trace ++ [Call.exec
        ("CREATE TABLE " ++ s.schema ++ "." ++ t ++ " (" ++
          String.intercalate ", "
            ((td.Columns.filter (fun p => !p.2.Delete)).map
              (fun p => p.1 ++ " " ++ p.2.Typ ++ (if p.2.NotNull then " NOT NULL" else "")))
          ++ ")") []] := by
  unfold createTable
  rw [Exec_trace, createTableQuery_eq]
  rfl

theorem createIndexLoop_eq (cols : List (String × IndexColumn)) (vars ps : List String) :
    createIndexLoop cols vars ps =
      (vars ++ cols.flatMap (fun p => [p.1, listedDirection p.2]),
        ps ++ List.replicate cols.length "%s %s") := by
  induction cols generalizing vars ps with
  | nil => simp [createIndexLoop]
  | cons p rest ih =>
    obtain ⟨c, cd⟩ := p
    unfold createIndexLoop
    simp only [ih, List.flatMap_cons, List.length_cons, List.replicate_succ,
      List.append_assoc, listedDirection]
    rfl

theorem createIndexLoop_eraseUnique (cols : List (String × IndexColumn))
    (vars ps : List String) :
    createIndexLoop
        (cols.map (fun p => (p.1, ({ Direction := p.2.Direction, Unique := "" } : IndexColumn))))
        vars ps
      = createIndexLoop cols vars ps := by
  induction cols generalizing vars ps with
  | nil => rfl
  | cons p rest ih =>
    obtain ⟨c, cd⟩ := p
    simp only [List.map_cons, createIndexLoop, ih]

/-- Counterexample to C10: the index on column `a` that carries the uniqueness
marker and the same index without the marker send the same statement, which
has no uniqueness modifier. -/
theorem unique_index_statement_is_the_same :
    (createIndex (New (scriptedDB (Except.ok []) (Except.ok []) (Except.ok []))) "t" "ix"
        { Columns := [("a", { Direction := "", Unique := "true" })], Delete := false }
        World.start).2.trace
      = [Call.exec "CREATE INDEX %s ON %s (%s %s)" ["ix", "t", "a", "ASC"]] ∧
    (createIndex (New (scriptedDB (Except.ok []) (Except.ok []) (Except.ok []))) "t" "ix"
        { Columns := [("a", { Direction := "", Unique := "" })], Delete := false }
        World.start).2.trace
      = [Call.exec "CREATE INDEX %s ON %s (%s %s)" ["ix", "t", "a", "ASC"]] := by
  decide

/-- C10, amended: for every index, `createIndex` sends exactly one statement:
the text `CREATE INDEX %s ON %s (...)` with one placeholder pair `%s %s` per
column, and as bind arguments the index name, the table name and then every
column of the index together with its direction, ASC for a column whose
Direction is empty.  The uniqueness marker is not rendered: the call is the
one made for the same index with every marker removed. -/
theorem createIndex_rendering {σ : Type} (s : Service σ) (t i : String) (id : Index)
    (w : World σ) :
    (createIndex s t i id w).2.trace =
      w.trace ++ [Call.exec
        ("CREATE INDEX %s ON %s (" ++
          String.intercalate ", " (List.replicate id.Columns.length "%s %s") ++ ")")
        ([i, t] ++ id.Columns.flatMap
          (fun p => [p.1, if p.2.Direction = "" then "ASC" else p.2.Direction]))] ∧
    createIndex s t i (eraseUnique id) w = createIndex s t i id w := by
  constructor
  · unfold createIndex
    rw [Exec_trace, createIndexLoop_eq]
    simp only [List.nil_append, String.append_assoc]
    rfl
  · unfold createIndex eraseUnique
    simp only [createIndexLoop_eraseUnique]

/-! ## Theorems: the trace only grows -/

theorem columnSwitch_grows {σ : Type} (s : Service σ) (t c : String) (cd : Column)
    (exf : GoMap Column) (err : Option Error) (w : World σ) :
    w.trace <+: (columnSwitch s t c cd exf err w).2.trace := by
  unfold columnSwitch createColumn updateColumn deleteColumn
  split_ifs <;> first | exact List.prefix_rfl | (rw [Exec_trace]; exact List.prefix_append _ _)

theorem columnLoop_grows {σ : Type} (s : Service σ) (t : String) (exf : GoMap Column)
    (cols : List (String × Column)) :
    ∀ (err : Option Error) (w : World σ),
      w.trace <+: (columnLoop s t exf cols err w).2.trace := by
  induction cols with
  | nil => intro err w; exact List.prefix_rfl
  | cons p rest ih =>
    intro err w
    obtain ⟨c, cd⟩ := p
    have hstep := columnSwitch_grows s t c cd exf err w
    unfold columnLoop
    split
    · rename_i e w1 heq
      rw [heq] at hstep
      exact hstep
    · rename_i w1 heq
      rw [heq] at hstep
      exact hstep.trans (ih none w1)

theorem createIndex_grows {σ : Type} (s : Service σ) (t i : String) (id : Index)
    (w : World σ) : w.trace <+: (createIndex s t i id w).2.trace := by
  unfold createIndex
  rw [Exec_trace]
  exact List.prefix_append _ _

theorem deleteIndex_grows {σ : Type} (s : Service σ) (t i : String) (w : World σ) :
    w.trace <+: (deleteIndex s t i w).2.trace := by
  unfold deleteIndex
  rw [Exec_trace]
  exact List.prefix_append _ _

theorem updateIndex_grows {σ : Type} (s : Service σ) (t i : String) (id : Index)
    (w : World σ) : w.trace <+: (updateIndex s t i id w).2.trace := by
  have hdel := deleteIndex_grows s t i w
  unfold updateIndex
  split
  · rename_i e w1 heq
    rw [heq] at hdel
    exact hdel
  · rename_i w1 heq
    rw [heq] at hdel
    refine hdel.trans (List.IsPrefix.trans ?_ (createIndex_grows s t i id _))
    rw [Exec_trace]
    exact List.prefix_append _ _

theorem indexSwitch_grows {σ : Type} (s : Service σ) (t i : String) (id : Index)
    (exi : GoMap String) (err : Option Error) (w : World σ) :
    w.trace <+: (indexSwitch s t i id exi err w).2.trace := by
  unfold indexSwitch
  split_ifs
  · exact List.prefix_rfl
  · exact createIndex_grows s t i id w
  · exact updateIndex_grows s t i id w
  · exact deleteIndex_grows s t i w
  · exact List.prefix_rfl

theorem indexLoop_grows {σ : Type} (s : Service σ) (t : String) (exi : GoMap String)
    (idxs : List (String × Index)) :
    ∀ (err : Option Error) (w : World σ),
      w.trace <+: (indexLoop s t exi idxs err w).2.trace := by
  induction idxs with
  | nil => intro err w; exact List.prefix_rfl
  | cons p rest ih =>
    intro err w
    obtain ⟨i, id⟩ := p
    have hstep := indexSwitch_grows s t i id exi err w
    unfold indexLoop
    split
    · rename_i e w1 heq
      rw [heq] at hstep
      exact hstep
    · rename_i w1 heq
      rw [heq] at hstep
      exact hstep.trans (ih none w1)

theorem tableExists_trace {σ : Type} (s : Service σ) (t : String) (w : World σ) :
    (tableExists s t w).2.trace = w.trace ++ [Call.query tableExistsSQL [t]] := by
  have hq := Query_trace s tableExistsSQL [t] w
  unfold tableExists
  split
  · rename_i e w1 heq
    rw [heq] at hq
    exact hq
  · rename_i w1 heq
    rw [heq] at hq
    exact hq
  · rename_i row rows w1 heq
    rw [heq] at hq
    split
    · split <;> exact hq
    · exact hq

theorem getColumns_trace {σ : Type} (s : Service σ) (t : String) (w : World σ) :
    (getColumns s t w).2.trace = w.trace ++ [Call.query getColumnsSQL [s.schema, t]] := by
  have hq := Query_trace s getColumnsSQL [s.schema, t] w
  unfold getColumns
  split
  · rename_i e w1 heq
    rw [heq] at hq
    exact hq
  · rename_i rows w1 heq
    rw [heq] at hq
    exact hq

theorem getIndexes_trace {σ : Type} (s : Service σ) (t : String) (w : World σ) :
    (getIndexes s t w).2.trace = w.trace ++ [Call.query getIndexesSQL [t]] := by
  have hq := Query_trace s getIndexesSQL [t] w
  unfold getIndexes
  split
  · rename_i e w1 heq
    rw [heq] at hq
    exact hq
  · rename_i rows w1 heq
    rw [heq] at hq
    exact hq

theorem tableStep_grows {σ : Type} (s : Service σ) (t : String) (td : Table) (ex : Bool)
    (w : World σ) : w.trace <+: (tableStep s t td ex w).2.trace := by
  unfold tableStep deleteTable createTable
  split_ifs <;> first | exact List.prefix_rfl | (rw [Exec_trace]; exact List.prefix_append _ _)

theorem migrateLoop_grows {σ : Type} (s : Service σ) (tables : List (String × Table)) :
    ∀ w : World σ, w.trace <+: (migrateLoop s tables w).2.trace := by
  induction tables with
  | nil => intro w; exact List.prefix_rfl
  | cons p rest ih =>
    intro w
    obtain ⟨t, td⟩ := p
    have h1 : w.trace <+: (tableExists s t w).2.trace := by
      rw [tableExists_trace]
      exact List.prefix_append _ _
    unfold migrateLoop
    split
    · rename_i x e w1 heq
      rw [heq] at h1
      exact h1
    · rename_i ex w1 heq
      rw [heq] at h1
      have h2 := tableStep_grows s t td ex w1
      split
      · rename_i e w2 heq2
        rw [heq2] at h2
        exact h1.trans h2
      · rename_i w2 heq2
        rw [heq2] at h2
        have h3 : w2.trace <+: (getColumns s t w2).2.trace := by
          rw [getColumns_trace]
          exact List.prefix_append _ _
        split
        rename_i exf err w3 heq3
        rw [heq3] at h3
        have h4 := columnLoop_grows s t exf td.Columns err w3
        split
        · rename_i e w4 heq4
          rw [heq4] at h4
          exact ((h1.trans h2).trans h3).trans h4
        · rename_i w4 heq4
          rw [heq4] at h4
          have h5 : w4.trace <+: (getIndexes s t w4).2.trace := by
            rw [getIndexes_trace]
            exact List.prefix_append _ _
          split
          · rename_i w5 heq5
            rw [heq5] at h5
            exact (((h1.trans h2).trans h3).trans h4).trans h5
          · rename_i exi err2 w5 heq5
            rw [heq5] at h5
            have h6 := indexLoop_grows s t exi td.Indexes err2 w5
            split
            · rename_i e w6 heq6
              rw [heq6] at h6
              exact ((((h1.trans h2).trans h3).trans h4).trans h5).trans h6
            · rename_i w6 heq6
              rw [heq6] at h6
              exact (((((h1.trans h2).trans h3).trans h4).trans h5).trans h6).trans (ih w6)

theorem migrateLoop_cons_grows {σ : Type} (s : Service σ) (t : String) (td : Table)
    (rest : List (String × Table)) (w w1 : World σ) (ex : Bool)
    (hex : tableExists s t w = ((ex, none), w1)) :
    (tableStep s t td ex w1).2.trace <+: (migrateLoop s ((t, td) :: rest) w).2.trace := by
  unfold migrateLoop
  rw [hex]
  simp only
  split
  · rename_i e w2 heq2
    rw [heq2]
  · rename_i w2 heq2
    rw [heq2]
    have h3 : w2.trace <+: (getColumns s t w2).2.trace := by
      rw [getColumns_trace]
      exact List.prefix_append _ _
    have h4 := columnLoop_grows s t (getColumns s t w2).1.1 td.Columns
      (getColumns s t w2).1.2 (getColumns s t w2).2
    split
    · rename_i e w4 heq4
      rw [heq4] at h4
      exact h3.trans h4
    · rename_i w4 heq4
      rw [heq4] at h4
      have h5 : w4.trace <+: (getIndexes s t w4).2.trace := by
        rw [getIndexes_trace]
        exact List.prefix_append _ _
      split
      · rename_i w5 heq5
        rw [heq5] at h5
        exact (h3.trans h4).trans h5
      · rename_i exi err2 w5 heq5
        rw [heq5] at h5
        have h6 := indexLoop_grows s t exi td.Indexes err2 w5
        split
        · rename_i e w6 heq6
          rw [heq6] at h6
          exact ((h3.trans h4).trans h5).trans h6
        · rename_i w6 heq6
          rw [heq6] at h6
          exact (((h3.trans h4).trans h5).trans h6).trans (migrateLoop_grows s rest w6)

/-! ## Theorems: names inside the CREATE TABLE statement -/

theorem intercalate_go_contains (x sep : String) (l : List String) :
    ∀ acc : String, ((∃ pre post, acc = pre ++ x ++ post) ∨ x ∈ l) →
      ∃ pre post, String.intercalate.go acc sep l = pre ++ x ++ post := by
  induction l with
  | nil =>
    intro acc h
    rcases h with h | h
    · simpa [String.intercalate.go] using h
    · simp at h
  | cons a rest ih =>
    intro acc h
    simp only [String.intercalate.go]
    apply ih
    rcases h with ⟨pre, post, h⟩ | h
    · left
      exact ⟨pre, post ++ sep ++ a, by rw [h]; simp [String.append_assoc]⟩
    · rcases List.mem_cons.1 h with h | h
      · left
        subst h
        exact ⟨acc ++ sep, "", by simp [String.append_assoc]⟩
      · right
        exact h

theorem intercalate_contains (x sep : String) (l : List String) (h : x ∈ l) :
    ∃ pre post, String.intercalate sep l = pre ++ x ++ post := by
  cases l with
  | nil => simp at h
  | cons a rest =>
    simp only [String.intercalate]
    apply intercalate_go_contains
    rcases List.mem_cons.1 h with h | h
    · left
      subst h
      exact ⟨"", "", by simp⟩
    · right
      exact h

theorem createTableQuery_contains_table (schema t : String) (td : Table) :
    ∃ pre post, createTableQuery schema t td = pre ++ t ++ post := by
  rw [createTableQuery_eq]
  exact ⟨"CREATE TABLE " ++ schema ++ ".",
    " (" ++ String.intercalate ", " (tableClauses td) ++ ")", by simp [String.append_assoc]⟩

theorem createTableQuery_contains_column (schema t : String) (td : Table) (c : String)
    (cd : Column) (hc : (c, cd) ∈ td.Columns) (hd : cd.Delete = false) :
    ∃ pre post, createTableQuery schema t td = pre ++ c ++ post := by
  have hmem : columnClause c cd ∈ tableClauses td := by
    unfold tableClauses
    refine List.mem_map.2 ⟨(c, cd), ?_, rfl⟩
    exact List.mem_filter.2 ⟨hc, by simp [hd]⟩
  obtain ⟨pre, post, h⟩ := intercalate_contains (columnClause c cd) ", " _ hmem
  rw [createTableQuery_eq, h]
  exact ⟨"CREATE TABLE " ++ schema ++ "." ++ t ++ " (" ++ pre,
    " " ++ cd.Typ ++ (if cd.NotNull then " NOT NULL" else "") ++ post ++ ")",
    by simp [columnClause, String.append_assoc]⟩

/-- C8, amended: names are not checked.  For every database and every desired
Migration whose first visited table, whatever characters its name holds, is
reported absent by `tableExists`, `Migrate` sends the CREATE TABLE statement
that `createTable` builds right after the existence query, and that statement
holds the table name, and the name of every column not marked Delete, as
they are written in the declaration. -/
theorem identifiers_are_not_checked {σ : Type} (s : Service σ) (t : String) (td : Table)
    (rest : List (String × Table)) (w : World σ)
    (hex : (tableExists s t w).1 = (false, none)) :
    (∃ tr, (Migrate s { Tables := (t, td) :: rest } w).2.trace =
      w.trace ++ [Call.query tableExistsSQL [t],
        Call.exec (createTableQuery s.schema t td) []] ++ tr) ∧
    (∃ pre post, createTableQuery s.schema t td = pre ++ t ++ post) ∧
    (∀ c cd, (c, cd) ∈ td.Columns → cd.Delete = false →
      ∃ pre post, createTableQuery s.schema t td = pre ++ c ++ post) := by
  refine ⟨?_, createTableQuery_contains_table _ _ _,
    fun c cd hc hd => createTableQuery_contains_column _ _ _ c cd hc hd⟩
  have hpair : tableExists s t w = ((false, none), (tableExists s t w).2) := by
    rw [← hex]
  have hpre := migrateLoop_cons_grows s t td rest w _ false hpair
  have hstep : (tableStep s t td false (tableExists s t w).2).2.trace =
      w.trace ++ [Call.query tableExistsSQL [t],
        Call.exec (createTableQuery s.schema t td) []] := by
    simp [tableStep, createTable, Exec_trace, tableExists_trace]
  rw [hstep] at hpre
  obtain ⟨tr, htr⟩ := hpre
  exact ⟨tr, htr.symm⟩


/-! ## Theorems: the orchestrator on concrete inputs -/

set_option maxRecDepth 100000

/-- Witness of C8, amended: the table `t;` with the column `na'me`, on the
database without tables. -/
theorem identifiers_are_not_checked_witness :
    (tableExists (New emptyDatabase) "t;" World.start).1 = (false, none) ∧
    (∃ tr, (Migrate (New emptyDatabase)
        { Tables := [("t;",
            { Columns := [("na'me", plainColumn "text")], Indexes := [], Delete := false })] }
        World.start).2.trace =
      [Call.query tableExistsSQL ["t;"],
        Call.exec (createTableQuery "public" "t;"
          { Columns := [("na'me", plainColumn "text")], Indexes := [], Delete := false })
          []] ++ tr) ∧
    (∃ pre post, createTableQuery "public" "t;"
        { Columns := [("na'me", plainColumn "text")], Indexes := [], Delete := false }
      = pre ++ "na'me" ++ post) :=
  ⟨by rfl,
   (identifiers_are_not_checked (New emptyDatabase) "t;"
      { Columns := [("na'me", plainColumn "text")], Indexes := [], Delete := false }
      [] World.start (by rfl)).1,
   (identifiers_are_not_checked (New emptyDatabase) "t;"
      { Columns := [("na'me", plainColumn "text")], Indexes := [], Delete := false }
      [] World.start (by rfl)).2.2 "na'me" (plainColumn "text")
      (List.mem_singleton.2 rfl) rfl⟩

/-- C1, the code at two conforming inputs.  First: the table `t` is marked
Delete and is absent from the database; `Migrate` sends a CREATE TABLE
statement for it.  Second: the table `t` exists, the declaration lists no
column for it, and the introspected index map holds the desired index `ix`
under the description the catalog gives; `Migrate` drops the index twice and
creates it again.  Neither run issues zero statements. -/
theorem migrate_reissues_statements :
    (tableExists (New emptyDatabase) "t" World.start).1 = (false, none) ∧
    Migrate (New emptyDatabase)
        { Tables := [("t", { Columns := [], Indexes := [], Delete := true })] } World.start
      = (Outcome.returned none,
          { st := (),
            trace := [Call.query tableExistsSQL ["t"],
              Call.exec "CREATE TABLE public.t ()" [],
              Call.query getColumnsSQL ["public", "t"],
              Call.query getIndexesSQL ["t"]] }) ∧
    (tableExists
        (New (catalogDatabase (Except.ok [])
          (Except.ok [[Value.str "ix",
            Value.str "CREATE INDEX ix ON public.t USING btree (id)"]])))
        "t" World.start).1 = (true, none) ∧
    (getIndexes
        (New (catalogDatabase (Except.ok [])
          (Except.ok [[Value.str "ix",
            Value.str "CREATE INDEX ix ON public.t USING btree (id)"]])))
        "t" World.start).1
      = Outcome.returned
          ([("ix", "CREATE INDEX ix ON public.t USING btree (id)")], none) ∧
    Migrate
        (New (catalogDatabase (Except.ok [])
          (Except.ok [[Value.str "ix",
            Value.str "CREATE INDEX ix ON public.t USING btree (id)"]])))
        { Tables := [("t",
            { Columns := [],
              Indexes := [("ix",
                { Columns := [("id", plainIndexColumn "ASC")], Delete := false })],
              Delete := false })] }
        World.start
      = (Outcome.returned none,
          { st := (),
            trace := [Call.query tableExistsSQL ["t"],
              Call.query getColumnsSQL ["public", "t"],
              Call.query getIndexesSQL ["t"],
              Call.exec "DROP INDEX %s" ["ix"],
              Call.exec "DROP INDEX %s" ["ix"],
              Call.exec "CREATE INDEX %s ON %s (%s %s)" ["ix", "t", "id", "ASC"]] }) := by
  refine ⟨?_, ?_, ?_, ?_, ?_⟩ <;> rfl

/-- C5, the code at a table marked Delete that does not exist: `Migrate` sends
a CREATE TABLE statement for `old_users`, with the column the declaration
lists, and then adds that column again. -/
theorem deleted_absent_table_is_created :
    Migrate (New emptyDatabase)
        { Tables := [("old_users",
            { Columns := [("id", plainColumn "integer")], Indexes := [], Delete := true })] }
        World.start
      = (Outcome.returned none,
          { st := (),
            trace := [Call.query tableExistsSQL ["old_users"],
              Call.exec "CREATE TABLE public.old_users (id integer)" [],
              Call.query getColumnsSQL ["public", "old_users"],
              Call.exec "ALTER TABLE %s ADD COLUMN %s %s" ["old_users", "id", "integer"],
              Call.query getIndexesSQL ["old_users"]] }) := by
  rfl

/-- C6, the code at a table marked Delete that exists and declares a column
and an index: after the table-level statement `Migrate` introspects the table
and sends a column statement and an index statement for it. -/
theorem deleted_table_columns_are_migrated :
    Migrate (New (catalogDatabase (Except.ok []) (Except.ok [])))
        { Tables := [("t",
            { Columns := [("id", plainColumn "integer")],
              Indexes := [("ix",
                { Columns := [("id", plainIndexColumn "ASC")], Delete := false })],
              Delete := true })] }
        World.start
      = (Outcome.returned none,
          { st := (),
            trace := [Call.query tableExistsSQL ["t"],
              Call.exec "" [],
              Call.query getColumnsSQL ["public", "t"],
              Call.exec "ALTER TABLE %s ADD COLUMN %s %s" ["t", "id", "integer"],
              Call.query getIndexesSQL ["t"],
              Call.exec "CREATE INDEX %s ON %s (%s %s)" ["ix", "t", "id", "ASC"]] }) := by
  rfl

/-- C7, the code when the column introspection fails.  `getColumns` returns
the error of its query; `Migrate` goes on to add the declared column and to
introspect the indexes, and returns nil.  With no column declared it returns
nil as well. -/
theorem failed_column_introspection_is_dropped :
    (getColumns (New (catalogDatabase (Except.error "connection reset") (Except.ok [])))
        "t" { st := (), trace := [Call.query tableExistsSQL ["t"]] }).1
      = ([], some "connection reset") ∧
    Migrate (New (catalogDatabase (Except.error "connection reset") (Except.ok [])))
        { Tables := [("t",
            { Columns := [("id", plainColumn "integer")], Indexes := [], Delete := false })] }
        World.start
      = (Outcome.returned none,
          { st := (),
            trace := [Call.query tableExistsSQL ["t"],
              Call.query getColumnsSQL ["public", "t"],
              Call.exec "ALTER TABLE %s ADD COLUMN %s %s" ["t", "id", "integer"],
              Call.query getIndexesSQL ["t"]] }) ∧
    Migrate (New (catalogDatabase (Except.error "connection reset") (Except.ok [])))
        { Tables := [("t", { Columns := [], Indexes := [], Delete := false })] }
        World.start
      = (Outcome.returned none,
          { st := (),
            trace := [Call.query tableExistsSQL ["t"],
              Call.query getColumnsSQL ["public", "t"],
              Call.query getIndexesSQL ["t"]] }) := by
  refine ⟨?_, ?_, ?_⟩ <;> rfl

/-- Counterexample to C8: the table name contains a statement terminator and
the column name a quote character; `Migrate` returns nil, and the CREATE TABLE
statement built from both names reaches the database. -/
theorem invalid_identifier_reaches_database :
    Migrate (New emptyDatabase)
        { Tables := [("t; DROP TABLE users",
            { Columns := [("na'me", plainColumn "text")], Indexes := [], Delete := false })] }
        World.start
      = (Outcome.returned none,
          { st := (),
            trace := [Call.query tableExistsSQL ["t; DROP TABLE users"],
              Call.exec "CREATE TABLE public.t; DROP TABLE users (na'me text)" [],
              Call.query getColumnsSQL ["public", "t; DROP TABLE users"],
              Call.exec "ALTER TABLE %s ADD COLUMN %s %s"
                ["t; DROP TABLE users", "na'me", "text"],
              Call.query getIndexesSQL ["t; DROP TABLE users"]] }) := by
  rfl

end Postgres
